import Mathlib

/-!
Shallow embedding of the connectup matchmaking engine: profile and match
data model, the weighted similarity scorer, the match generator, the
Redis-backed profile/match stores (modelled as an association list of
JSON values), and the search/pagination handler.
-/

namespace ConnectUp

/-! ### String helpers (model of the Go strings package operations used) -/

/-- Model of strings.ToLower: lower-case every character. -/
def goToLower (s : String) : String := ⟨s.data.map Char.toLower⟩

/-- Model of strings.TrimSpace on a character list: drop leading and
trailing whitespace. -/
def trimChars (l : List Char) : List Char :=
  ((l.dropWhile Char.isWhitespace).reverse.dropWhile Char.isWhitespace).reverse

/-- Model of strings.TrimSpace. -/
def goTrimSpace (s : String) : String := ⟨trimChars s.data⟩

/-- Split a character list at every comma, keeping empty segments, as
strings.Split(s, ",") does. -/
def splitComma : List Char → List (List Char)
  | [] => [[]]
  | c :: cs =>
    if c = ',' then [] :: splitComma cs
    else
      match splitComma cs with
      | [] => [[c]]
      | h :: t => (c :: h) :: t

/-- Model of strings.Split(s, ","). -/
def goSplitComma (s : String) : List String :=
  (splitComma s.data).map (fun l => ⟨l⟩)

/-- Whether the first list is an initial segment of the second. -/
def startsWithL : List Char → List Char → Bool
  | [], _ => true
  | _ :: _, [] => false
  | a :: as, b :: bs => a = b && startsWithL as bs

/-- Whether the needle occurs as a contiguous substring of the haystack,
as strings.Contains(hay, needle). -/
def hasSub (needle : List Char) : List Char → Bool
  | [] => needle.isEmpty
  | c :: cs => startsWithL needle (c :: cs) || hasSub needle cs

/-- Model of strings.Contains. -/
def goContains (hay needle : String) : Bool := hasSub needle.data hay.data

/-- Model of strings.HasPrefix, used to enumerate store keys by pattern. -/
def goHasPre (s pre : String) : Bool := startsWithL pre.data s.data

/-- Model of strings.Join(parts, sep). -/
def goJoin (parts : List String) (sep : String) : String :=
  String.intercalate sep parts

/-! ### Data model (models/matchmaker.go) -/

/-- models.UserProfile. time.Time fields are modelled as integers
(nanoseconds since the epoch). -/
structure UserProfile where
  UserID : String
  Tags : List String
  Industries : List String
  Experience : Int
  Interests : List String
  Location : String
  Bio : String
  Skills : List String
  CreatedAt : Int
  UpdatedAt : Int
deriving DecidableEq, Repr

/-- models.Match. Score is a float64 in Go, modelled as a rational. -/
structure Match where
  ID : String
  UserID1 : String
  UserID2 : String
  Score : ℚ
  CommonTags : List String
  CommonSkills : List String
  Status : String
  CreatedAt : Int
  UpdatedAt : Int
deriving DecidableEq, Repr

/-- models.MatchScore, the element of a search result. -/
structure MatchScore where
  UserID : String
  Score : ℚ
  Reason : String
deriving DecidableEq, Repr

/-- models.MatchmakingCriteria. -/
structure MatchmakingCriteria where
  UserID : String
  Tags : List String
  Industries : List String
  MinExp : Int
  MaxExp : Int
  Skills : List String
  Location : String
  Limit : Int
  Offset : Int
deriving DecidableEq, Repr

/-! ### Exact rational arithmetic

The Go code computes scores with float64 addition, multiplication and
division. We model float arithmetic by exact rational arithmetic. The
standard ℚ operations are irreducible in this toolchain, so we use
equivalent kernel-computable forms built on Rat.divInt; qadd_eq_add,
qmul_eq_mul and qdiv_eq_div below prove they agree with ℚ's own
operations. -/

/-- Exact rational addition in a kernel-computable form. -/
def qadd (a b : ℚ) : ℚ :=
  Rat.divInt (a.num * (b.den : Int) + b.num * (a.den : Int)) ((a.den : Int) * (b.den : Int))

/-- Exact rational multiplication in a kernel-computable form. -/
def qmul (a b : ℚ) : ℚ :=
  Rat.divInt (a.num * b.num) ((a.den : Int) * (b.den : Int))

/-- Exact rational division in a kernel-computable form. -/
def qdiv (a b : ℚ) : ℚ :=
  Rat.divInt (a.num * (b.den : Int)) ((a.den : Int) * b.num)

/-! ### Similarity scorer (internal/matchmaker, part_002) -/

/-- calculateSimilarity: Jaccard similarity of the lower-cased sets of two
string slices; 1.0 when both are empty, 0.0 when exactly one is. The Go
code builds two hash sets of lower-cased items, counts the intersection by
scanning the first set, and divides by len1+len2-intersection. -/
def calculateSimilarity (slice1 slice2 : List String) : ℚ :=
  if slice1 = [] ∧ slice2 = [] then 1
  else if slice1 = [] ∨ slice2 = [] then 0
  else
    let set1 := (slice1.map goToLower).dedup
    let set2 := (slice2.map goToLower).dedup
    let inter := (set1.filter (fun x => set2.contains x)).length
    let union := set1.length + set2.length - inter
    if union = 0 then 0 else mkRat (inter : Int) union

/-- calculateExperienceCompatibility: step function of the absolute
difference in years. -/
def calculateExperienceCompatibility (exp1 exp2 : Int) : ℚ :=
  let diff := (exp1 - exp2).natAbs
  if diff ≤ 2 then 1
  else if diff ≤ 5 then mkRat 7 10
  else if diff ≤ 10 then mkRat 2 5
  else mkRat 1 10

/-- calculateLocationCompatibility: 0.5 when either location is the empty
string; otherwise compare the lower-cased, trimmed strings, then the
trimmed comma-separated segments. -/
def calculateLocationCompatibility (loc1 loc2 : String) : ℚ :=
  if loc1 = "" ∨ loc2 = "" then mkRat 1 2
  else
    let loc1Lower := goToLower (goTrimSpace loc1)
    let loc2Lower := goToLower (goTrimSpace loc2)
    if loc1Lower = loc2Lower then 1
    else
      let parts1 := goSplitComma loc1Lower
      let parts2 := goSplitComma loc2Lower
      if parts1.any (fun part1 => parts2.any (fun part2 =>
          goTrimSpace part1 = goTrimSpace part2)) then mkRat 4 5
      else mkRat 1 5

/-- CalculateMatchScore: weighted sum of the five sub-scores with weights
0.3, 0.25, 0.2, 0.15, 0.1, accumulated left to right and divided by the
accumulated total weight, as in the Go code. -/
def CalculateMatchScore (profile1 profile2 : UserProfile) : ℚ :=
  let tagScore := calculateSimilarity profile1.Tags profile2.Tags
  let industryScore := calculateSimilarity profile1.Industries profile2.Industries
  let expScore := calculateExperienceCompatibility profile1.Experience profile2.Experience
  let skillsScore := calculateSimilarity profile1.Skills profile2.Skills
  let locationScore := calculateLocationCompatibility profile1.Location profile2.Location
  let score := qadd (qadd (qadd (qadd
    (qmul tagScore (mkRat 3 10))
    (qmul industryScore (mkRat 1 4)))
    (qmul expScore (mkRat 1 5)))
    (qmul skillsScore (mkRat 3 20)))
    (qmul locationScore (mkRat 1 10))
  let totalWeight := qadd (qadd (qadd (qadd
    (mkRat 3 10) (mkRat 1 4)) (mkRat 1 5)) (mkRat 3 20)) (mkRat 1 10)
  qdiv score totalWeight

/-- FindCommonTags: collect the elements of the second slice whose
lower-casing appears among the lower-casings of the first slice. -/
def FindCommonTags (tags1 tags2 : List String) : List String :=
  let set1 := tags1.map goToLower
  tags2.filter (fun tag => set1.contains (goToLower tag))

/-- FindCommonSkills: same algorithm as FindCommonTags, over skills. -/
def FindCommonSkills (skills1 skills2 : List String) : List String :=
  let set1 := skills1.map goToLower
  skills2.filter (fun skill => set1.contains (goToLower skill))

/-! ### JSON values and the Redis store

Profiles and matches are stored in Redis as JSON documents
(json.Marshal on write, json.Unmarshal on read). We model JSON at the
value level and the Redis string store as an association list from keys
to JSON values; SET overwrites the key, GET returns the stored value,
KEYS enumerates keys matching a pattern. -/

/-- A JSON value. Numbers are modelled as exact rationals. -/
inductive Json where
  | str (s : String)
  | num (q : ℚ)
  | arr (elems : List Json)
  | obj (fields : List (String × Json))

/-- Look up a field of a JSON object. -/
def jGet (j : Json) (k : String) : Option Json :=
  match j with
  | .obj fields => (fields.find? (fun kv => kv.1 == k)).map Prod.snd
  | _ => none

/-- Decode a JSON string. -/
def decodeStr : Json → Option String
  | .str s => some s
  | _ => none

/-- Decode a JSON number into an integer; a fractional value fails, as
json.Unmarshal into a Go int does. -/
def decodeInt : Json → Option Int
  | .num q => if q.den = 1 then some q.num else none
  | _ => none

/-- Decode a JSON number into a rational (Go float64 field). -/
def decodeRat : Json → Option ℚ
  | .num q => some q
  | _ => none

/-- Decode a list of JSON strings. -/
def decodeStrs : List Json → Option (List String)
  | [] => some []
  | j :: js =>
    match decodeStr j, decodeStrs js with
    | some s, some rest => some (s :: rest)
    | _, _ => none

/-- Decode a JSON array of strings. -/
def decodeStrList : Json → Option (List String)
  | .arr es => decodeStrs es
  | _ => none

/-- Encode a string slice. -/
def encodeStrs (l : List String) : Json := .arr (l.map .str)

/-- json.Marshal of a models.UserProfile. -/
def encodeProfile (p : UserProfile) : Json :=
  .obj [("user_id", .str p.UserID),
        ("tags", encodeStrs p.Tags),
        ("industries", encodeStrs p.Industries),
        ("experience", .num (p.Experience : ℚ)),
        ("interests", encodeStrs p.Interests),
        ("location", .str p.Location),
        ("bio", .str p.Bio),
        ("skills", encodeStrs p.Skills),
        ("created_at", .num (p.CreatedAt : ℚ)),
        ("updated_at", .num (p.UpdatedAt : ℚ))]

/-- json.Unmarshal into a models.UserProfile. -/
def decodeProfile (j : Json) : Option UserProfile := do
  let uid ← jGet j "user_id" >>= decodeStr
  let tags ← jGet j "tags" >>= decodeStrList
  let industries ← jGet j "industries" >>= decodeStrList
  let experience ← jGet j "experience" >>= decodeInt
  let interests ← jGet j "interests" >>= decodeStrList
  let location ← jGet j "location" >>= decodeStr
  let bio ← jGet j "bio" >>= decodeStr
  let skills ← jGet j "skills" >>= decodeStrList
  let createdAt ← jGet j "created_at" >>= decodeInt
  let updatedAt ← jGet j "updated_at" >>= decodeInt
  return { UserID := uid, Tags := tags, Industries := industries,
           Experience := experience, Interests := interests,
           Location := location, Bio := bio, Skills := skills,
           CreatedAt := createdAt, UpdatedAt := updatedAt }

/-- json.Marshal of a models.Match. -/
def encodeMatch (m : Match) : Json :=
  .obj [("id", .str m.ID),
        ("user_id_1", .str m.UserID1),
        ("user_id_2", .str m.UserID2),
        ("score", .num m.Score),
        ("common_tags", encodeStrs m.CommonTags),
        ("common_skills", encodeStrs m.CommonSkills),
        ("status", .str m.Status),
        ("created_at", .num (m.CreatedAt : ℚ)),
        ("updated_at", .num (m.UpdatedAt : ℚ))]

/-- json.Unmarshal into a models.Match. -/
def decodeMatch (j : Json) : Option Match := do
  let id ← jGet j "id" >>= decodeStr
  let u1 ← jGet j "user_id_1" >>= decodeStr
  let u2 ← jGet j "user_id_2" >>= decodeStr
  let score ← jGet j "score" >>= decodeRat
  let ctags ← jGet j "common_tags" >>= decodeStrList
  let cskills ← jGet j "common_skills" >>= decodeStrList
  let status ← jGet j "status" >>= decodeStr
  let createdAt ← jGet j "created_at" >>= decodeInt
  let updatedAt ← jGet j "updated_at" >>= decodeInt
  return { ID := id, UserID1 := u1, UserID2 := u2, Score := score,
           CommonTags := ctags, CommonSkills := cskills, Status := status,
           CreatedAt := createdAt, UpdatedAt := updatedAt }

/-- The Redis string store: an association list from keys to JSON values. -/
abbrev Store := List (String × Json)

/-- Redis SET: overwrite the value at a key. -/
def storeSet (s : Store) (k : String) (v : Json) : Store :=
  (k, v) :: s.filter (fun kv => !(kv.1 == k))

/-- Redis GET. -/
def storeGet (s : Store) (k : String) : Option Json :=
  (s.find? (fun kv => kv.1 == k)).map Prod.snd

/-- Redis KEYS: all keys, in enumeration order. -/
def storeKeys (s : Store) : List String := s.map Prod.fst

/-! ### Profile and match stores (internal/matchmaker, part_002) -/

/-- StoreUserProfile: marshal the profile and SET it under
user_profile:(user id). -/
def StoreUserProfile (s : Store) (profile : UserProfile) : Store :=
  storeSet s ("user_profile:" ++ profile.UserID) (encodeProfile profile)

/-- GetUserProfile: GET user_profile:(user id) and unmarshal. -/
def GetUserProfile (s : Store) (userID : String) : Option UserProfile :=
  (storeGet s ("user_profile:" ++ userID)).bind decodeProfile

/-- GetAllUserProfiles: KEYS user_profile:*, GET each and unmarshal,
skipping keys whose GET or unmarshal fails. -/
def GetAllUserProfiles (s : Store) : List UserProfile :=
  let keys := (storeKeys s).filter (fun k => goHasPre k "user_profile:")
  keys.filterMap (fun k => (storeGet s k).bind decodeProfile)

/-- StoreMatch: marshal the match and SET it under match:(match id). -/
def StoreMatch (s : Store) (m : Match) : Store :=
  storeSet s ("match:" ++ m.ID) (encodeMatch m)

/-! ### Match generator (FindMatches, part_002) -/

/-- The Match record FindMatches constructs for a retained candidate:
status pending, both timestamps the current time, common tags/skills
snapshots taken with the subject first and the candidate second. -/
def mkPendingMatch (userID : String) (userProfile candidate : UserProfile)
    (id : String) (now : Int) : Match :=
  { ID := id, UserID1 := userID, UserID2 := candidate.UserID,
    Score := CalculateMatchScore userProfile candidate,
    CommonTags := FindCommonTags userProfile.Tags candidate.Tags,
    CommonSkills := FindCommonSkills userProfile.Skills candidate.Skills,
    Status := "pending", CreatedAt := now, UpdatedAt := now }

/-- FindMatches: load the subject profile (a failure propagates as none), scan
all profiles, skip the subject itself, keep candidates scoring strictly
above 0.3, sort descending by score, truncate to the top 10. The i-th
constructed match receives the i-th freshly generated id (uuid.New), and
now is the current time. -/
def FindMatches (s : Store) (userID : String) (freshId : Nat → String)
    (now : Int) : Option (List Match) :=
  (GetUserProfile s userID).map (fun userProfile =>
    let profiles := GetAllUserProfiles s
    let kept := profiles.filter (fun profile =>
      !(profile.UserID == userID) &&
      decide (mkRat 3 10 < CalculateMatchScore userProfile profile))
    let pending := kept.enum.map
      (fun ip => mkPendingMatch userID userProfile ip.2 (freshId ip.1) now)
    (List.insertionSort (fun a b => b.Score ≤ a.Score) pending).take 10)

/-! ### Match status update and fetch (handlers/matchmaker.go) -/

/-- GetMatchDetails: reject an empty id, GET match:(id), unmarshal. -/
def GetMatchDetails (s : Store) (matchID : String) : Option Match :=
  if matchID = "" then none
  else (storeGet s ("match:" ++ matchID)).bind decodeMatch

/-- UpdateMatchStatus: reject an empty id and any status other than
pending, accepted or rejected; GET and unmarshal the match; set its
status and updated_at; store it back under match:(its id field). -/
def UpdateMatchStatus (s : Store) (matchID : String) (status : String)
    (now : Int) : Option Store :=
  if matchID = "" then none
  else if !(status == "pending" || status == "accepted" || status == "rejected") then none
  else
    match (storeGet s ("match:" ++ matchID)).bind decodeMatch with
    | none => none
    | some m => some (StoreMatch s { m with Status := status, UpdatedAt := now })

/-! ### Search (handlers/matchmaker.go SearchMatches) -/

/-- matchesCriteria: hard filters applied before scoring. Industries and
skills demand a case-insensitive overlap when the criteria list is
non-empty; experience bounds apply only when strictly positive; a
non-empty criteria location must be a case-insensitive substring of the
profile location. -/
def matchesCriteria (profile : UserProfile) (criteria : MatchmakingCriteria) : Bool :=
  (criteria.Industries.isEmpty ||
    criteria.Industries.any (fun industry =>
      profile.Industries.any (fun pIndustry => goToLower industry == goToLower pIndustry))) &&
  !(0 < criteria.MinExp && profile.Experience < criteria.MinExp) &&
  !(0 < criteria.MaxExp && criteria.MaxExp < profile.Experience) &&
  (criteria.Skills.isEmpty ||
    criteria.Skills.any (fun skill =>
      profile.Skills.any (fun pSkill => goToLower skill == goToLower pSkill))) &&
  (criteria.Location == "" ||
    goContains (goToLower profile.Location) (goToLower criteria.Location))

/-- generateMatchReason: human-readable factor list, joined by a
semicolon, or a default sentence when no factor fired. -/
def generateMatchReason (profile1 profile2 : UserProfile) : String :=
  let commonTags := FindCommonTags profile1.Tags profile2.Tags
  let r1 : List String :=
    if commonTags.isEmpty then []
    else ["Common interests: " ++ goJoin commonTags ", "]
  let commonSkills := FindCommonSkills profile1.Skills profile2.Skills
  let r2 := r1 ++ (if commonSkills.isEmpty then []
    else ["Common skills: " ++ goJoin commonSkills ", "])
  let r3 := r2 ++ (if (profile1.Experience - profile2.Experience).natAbs ≤ 2
    then ["Similar experience level"] else [])
  let r4 := r3 ++ (if profile1.Location ≠ "" ∧ profile2.Location ≠ "" ∧
      goToLower profile1.Location = goToLower profile2.Location
    then ["Same location"] else [])
  if r4.isEmpty then "Good overall compatibility" else goJoin r4 "; "

/-- The loop body of SearchMatches: skip the requester, apply the hard
filters, score, keep survivors scoring strictly above 0.3. -/
def searchCandidates (userProfile : UserProfile) (profiles : List UserProfile)
    (criteria : MatchmakingCriteria) : List MatchScore :=
  profiles.filterMap (fun profile =>
    if profile.UserID == criteria.UserID then none
    else if !(matchesCriteria profile criteria) then none
    else
      let score := CalculateMatchScore userProfile profile
      if mkRat 3 10 < score then
        some { UserID := profile.UserID, Score := score,
               Reason := generateMatchReason userProfile profile }
      else none)

/-- The surviving search results sorted descending by score. -/
def searchRanked (userProfile : UserProfile) (profiles : List UserProfile)
    (criteria : MatchmakingCriteria) : List MatchScore :=
  List.insertionSort (fun a b => b.Score ≤ a.Score)
    (searchCandidates userProfile profiles criteria)

/-- Go slice expression l[lo:hi]: out-of-range bounds panic (none). -/
def goSlice (l : List MatchScore) (lo hi : Int) : Option (List MatchScore) :=
  if 0 ≤ lo ∧ lo ≤ hi ∧ hi ≤ (l.length : Int) then
    some ((l.drop lo.toNat).take (hi - lo).toNat)
  else none

/-- The pagination step of SearchMatches: only entered when limit > 0 and
offset < len(matches); the end index is clamped to len(matches); the Go
slice expression matches[offset:end] panics on a negative offset. -/
def paginateSearch (criteria : MatchmakingCriteria)
    (results : List MatchScore) : Option (List MatchScore) :=
  if 0 < criteria.Limit ∧ criteria.Offset < (results.length : Int) then
    let e := criteria.Offset + criteria.Limit
    let e2 := if (results.length : Int) < e then (results.length : Int) else e
    goSlice results criteria.Offset e2
  else some results

/-- Outcome of the SearchMatches handler. -/
inductive SearchResult where
  | notFound
  | panic
  | ok (results : List MatchScore)
deriving DecidableEq, Repr

/-- The continuation of SearchMatches once the requester profile has been
loaded: rank the survivors and paginate. -/
def searchAfterProfile (s : Store) (criteria : MatchmakingCriteria)
    (userProfile : UserProfile) : SearchResult :=
  match paginateSearch criteria
      (searchRanked userProfile (GetAllUserProfiles s) criteria) with
  | none => .panic
  | some page => .ok page

/-- SearchMatches: load all profiles and the requester profile (a missing
requester is a 404), filter+score+rank, then paginate. -/
def SearchMatches (s : Store) (criteria : MatchmakingCriteria) : SearchResult :=
  match GetUserProfile s criteria.UserID with
  | none => .notFound
  | some userProfile => searchAfterProfile s criteria userProfile

/-! ### Spec-side formulations

These definitions transcribe the specification text (not the Go code);
the refinement theorems below compare them with the code-derived
definitions. -/

/-- The specification's Jaccard sub-score: 1.0 when both sets are empty,
0.0 when exactly one is, otherwise the Jaccard index of the lower-cased
sets, the intersection cardinality over the union cardinality. -/
def jaccardSpec (a b : List String) : ℚ :=
  if a = [] ∧ b = [] then 1
  else if a = [] ∨ b = [] then 0
  else
    let A := (a.map goToLower).toFinset
    let B := (b.map goToLower).toFinset
    ((A ∩ B).card : ℚ) / ((A ∪ B).card : ℚ)

/-- The comma-delimited segments of a location, lower-cased and trimmed. -/
def locationSegs (loc : String) : List String :=
  (goSplitComma (goToLower (goTrimSpace loc))).map goTrimSpace

/-- The specification's location sub-score: 0.5 if either location is
empty, 1.0 on a full case/whitespace-insensitive match, 0.8 if some
comma-delimited segment matches across the two strings, else 0.2. -/
def locationSpec (loc1 loc2 : String) : ℚ :=
  if loc1 = "" ∨ loc2 = "" then mkRat 1 2
  else if goToLower (goTrimSpace loc1) = goToLower (goTrimSpace loc2) then 1
  else if ∃ seg1 ∈ locationSegs loc1, ∃ seg2 ∈ locationSegs loc2, seg1 = seg2
    then mkRat 4 5
  else mkRat 1 5

/-- The specification's case-insensitive intersection, keeping the casing
of the second argument: the elements of b that match some element of a
up to lower-casing. -/
def commonSpec (a b : List String) : List String :=
  b.filter (fun x => decide (∃ y ∈ a, goToLower y = goToLower x))

/-! ### Concrete fixtures used by witnesses and counterexamples -/

/-- A concrete requester profile. -/
def cProfile1 : UserProfile := ⟨"u1", ["go"], ["tech"], 5, [], "sf", "", ["go"], 0, 0⟩

/-- A concrete candidate profile identical to cProfile1 except for its id. -/
def cProfile2 : UserProfile := ⟨"u2", ["go"], ["tech"], 5, [], "sf", "", ["go"], 0, 0⟩

/-- A store holding the two concrete profiles. -/
def cStore : Store := StoreUserProfile (StoreUserProfile [] cProfile1) cProfile2

/-- Criteria with no hard filters, limit 1 and offset 5: the offset is at
least the number of surviving results (which is 1). -/
def cCrit : MatchmakingCriteria := ⟨"u1", [], [], 0, 0, [], "", 1, 5⟩

/-- Criteria with no hard filters, limit 0 and a nonsense offset. -/
def cCritZero : MatchmakingCriteria := ⟨"u1", [], [], 0, 0, [], "", 0, -7⟩

/-- A concrete stored match. -/
def cMatch : Match := ⟨"m1", "u1", "u2", 1, ["go"], ["go"], "pending", 0, 0⟩

/-- The two-profile store with cMatch stored on top. -/
def cMatchStore : Store := StoreMatch cStore cMatch

/-- The match FindMatches produces on cStore for subject u1 with a
constant id supply and current time 7. -/
def cFoundMatch : Match := ⟨"id0", "u1", "u2", 1, ["go"], ["go"], "pending", 7, 7⟩

/-- The list FindMatches produces on cStore for subject u1 with a constant
id supply and current time 7. -/
def cFoundMatches : List Match := [cFoundMatch]

/-! ### The kernel-computable rational operations agree with ℚ -/

/-- qadd computes rational addition. -/
theorem qadd_eq_add (a b : ℚ) : qadd a b = a + b := by
  have ha : ((a.den : ℚ)) ≠ 0 := by exact_mod_cast a.den_nz
  have hb : ((b.den : ℚ)) ≠ 0 := by exact_mod_cast b.den_nz
  rw [qadd, Rat.divInt_eq_div]
  push_cast
  conv_rhs => rw [← Rat.num_div_den a, ← Rat.num_div_den b]
  rw [div_add_div _ _ ha hb]
  ring

/-- qmul computes rational multiplication. -/
theorem qmul_eq_mul (a b : ℚ) : qmul a b = a * b := by
  rw [qmul, Rat.divInt_eq_div]
  push_cast
  conv_rhs => rw [← Rat.num_div_den a, ← Rat.num_div_den b]
  rw [div_mul_div_comm]

/-- qdiv computes rational division (with division by zero yielding zero
on both sides). -/
theorem qdiv_eq_div (a b : ℚ) : qdiv a b = a / b := by
  rcases eq_or_ne b 0 with rfl | hb0
  · simp [qdiv]
  · have ha : ((a.den : ℚ)) ≠ 0 := by exact_mod_cast a.den_nz
    have hb : ((b.den : ℚ)) ≠ 0 := by exact_mod_cast b.den_nz
    have hbn : ((b.num : ℚ)) ≠ 0 := by exact_mod_cast Rat.num_ne_zero.mpr hb0
    rw [qdiv, Rat.divInt_eq_div]
    push_cast
    conv_rhs => rw [← Rat.num_div_den a, ← Rat.num_div_den b]
    field_simp

/-! ### Commutativity of the sub-scores -/

/-- The scan of a duplicate-free list counting members of another list
computes the cardinality of the intersection of the two sets. -/
theorem filter_contains_length_eq_card (u v : List String) (hu : u.Nodup) :
    (u.filter (fun x => v.contains x)).length = (u.toFinset ∩ v.toFinset).card := by
  have hnd : (u.filter (fun x => v.contains x)).Nodup := hu.filter _
  have hfin : (u.filter (fun x => v.contains x)).toFinset = u.toFinset ∩ v.toFinset := by
    ext x
    simp [List.mem_filter, List.contains, List.elem_iff]
  calc (u.filter (fun x => v.contains x)).length
      = (u.filter (fun x => v.contains x)).dedup.length := by rw [hnd.dedup]
    _ = (u.filter (fun x => v.contains x)).toFinset.card := (List.card_toFinset _).symm
    _ = (u.toFinset ∩ v.toFinset).card := by rw [hfin]

/-- Counting the common elements is symmetric between the two
deduplicated sets. -/
theorem filter_contains_length_comm (l1 l2 : List String)
    (h1 : l1.Nodup) (h2 : l2.Nodup) :
    (l1.filter (fun x => l2.contains x)).length
      = (l2.filter (fun x => l1.contains x)).length := by
  rw [filter_contains_length_eq_card l1 l2 h1,
    filter_contains_length_eq_card l2 l1 h2, Finset.inter_comm]

/-- calculateSimilarity is commutative. -/
theorem calculateSimilarity_comm (slice1 slice2 : List String) :
    calculateSimilarity slice1 slice2 = calculateSimilarity slice2 slice1 := by
  rcases eq_or_ne slice1 [] with h1 | h1
  · rcases eq_or_ne slice2 [] with h2 | h2
    · simp [calculateSimilarity, h1, h2]
    · simp [calculateSimilarity, h1, h2]
  · rcases eq_or_ne slice2 [] with h2 | h2
    · simp [calculateSimilarity, h1, h2]
    · simp only [calculateSimilarity]
      rw [if_neg (show ¬(slice1 = [] ∧ slice2 = []) by tauto),
        if_neg (show ¬(slice1 = [] ∨ slice2 = []) by tauto),
        if_neg (show ¬(slice2 = [] ∧ slice1 = []) by tauto),
        if_neg (show ¬(slice2 = [] ∨ slice1 = []) by tauto)]
      have hint := filter_contains_length_comm
        ((slice1.map goToLower).dedup) ((slice2.map goToLower).dedup)
        (List.nodup_dedup _) (List.nodup_dedup _)
      rw [hint, Nat.add_comm ((slice1.map goToLower).dedup.length)
        ((slice2.map goToLower).dedup.length)]

/-- calculateExperienceCompatibility is commutative. -/
theorem calculateExperienceCompatibility_comm (exp1 exp2 : Int) :
    calculateExperienceCompatibility exp1 exp2
      = calculateExperienceCompatibility exp2 exp1 := by
  unfold calculateExperienceCompatibility
  have h : (exp1 - exp2).natAbs = (exp2 - exp1).natAbs := by omega
  rw [h]

/-- The nested any-loops of the segment comparison are symmetric. -/
theorem any_any_trim_comm (parts1 parts2 : List String) :
    (parts1.any (fun part1 => parts2.any (fun part2 =>
        goTrimSpace part1 = goTrimSpace part2)))
      = (parts2.any (fun part1 => parts1.any (fun part2 =>
        goTrimSpace part1 = goTrimSpace part2))) := by
  rw [Bool.eq_iff_iff]
  simp only [List.any_eq_true, decide_eq_true_eq]
  constructor
  · rintro ⟨x, hx, y, hy, h⟩
    exact ⟨y, hy, x, hx, h.symm⟩
  · rintro ⟨x, hx, y, hy, h⟩
    exact ⟨y, hy, x, hx, h.symm⟩

/-- calculateLocationCompatibility is commutative. -/
theorem calculateLocationCompatibility_comm (loc1 loc2 : String) :
    calculateLocationCompatibility loc1 loc2
      = calculateLocationCompatibility loc2 loc1 := by
  simp only [calculateLocationCompatibility]
  by_cases h1 : loc1 = ""
  · simp [h1]
  · by_cases h2 : loc2 = ""
    · simp [h2]
    · rw [if_neg (show ¬(loc1 = "" ∨ loc2 = "") by tauto),
        if_neg (show ¬(loc2 = "" ∨ loc1 = "") by tauto)]
      by_cases heq : goToLower (goTrimSpace loc1) = goToLower (goTrimSpace loc2)
      · rw [if_pos heq, if_pos heq.symm]
      · rw [if_neg heq,
          if_neg (show ¬(goToLower (goTrimSpace loc2) = goToLower (goTrimSpace loc1))
            from fun hc => heq hc.symm),
          any_any_trim_comm]

/-- C2. For every pair of profiles the compatibility scorer is
commutative: CalculateMatchScore a b equals CalculateMatchScore b a. -/
theorem calculateMatchScore_comm (a b : UserProfile) :
    CalculateMatchScore a b = CalculateMatchScore b a := by
  simp only [CalculateMatchScore]
  rw [calculateSimilarity_comm a.Tags, calculateSimilarity_comm a.Industries,
    calculateExperienceCompatibility_comm a.Experience,
    calculateSimilarity_comm a.Skills,
    calculateLocationCompatibility_comm a.Location]

/-! ### The sub-scores match their specification formulas -/

/-- C4. The set-similarity sub-score used for tags, industries and skills
equals 1.0 when both lists are empty, 0.0 when exactly one is empty, and
otherwise the Jaccard index of the lower-cased sets of their elements,
as jaccardSpec transcribes from the specification. -/
theorem calculateSimilarity_eq_jaccardSpec (a b : List String) :
    calculateSimilarity a b = jaccardSpec a b := by
  rcases eq_or_ne a [] with h1 | h1
  · rcases eq_or_ne b [] with h2 | h2 <;> simp [calculateSimilarity, jaccardSpec, h1, h2]
  · rcases eq_or_ne b [] with h2 | h2
    · simp [calculateSimilarity, jaccardSpec, h1, h2]
    · simp only [calculateSimilarity, jaccardSpec]
      rw [if_neg (show ¬(a = [] ∧ b = []) by tauto),
        if_neg (show ¬(a = [] ∨ b = []) by tauto),
        if_neg (show ¬(a = [] ∧ b = []) by tauto),
        if_neg (show ¬(a = [] ∨ b = []) by tauto)]
      have hdt : ∀ l : List String, l.dedup.toFinset = l.toFinset := by
        intro l
        ext x
        simp [List.mem_dedup]
      have hinter : (((a.map goToLower).dedup).filter
            (fun x => ((b.map goToLower).dedup).contains x)).length
          = ((a.map goToLower).toFinset ∩ (b.map goToLower).toFinset).card := by
        rw [filter_contains_length_eq_card _ _ (List.nodup_dedup _), hdt, hdt]
      have hlen1 : (a.map goToLower).dedup.length = (a.map goToLower).toFinset.card :=
        (List.card_toFinset _).symm
      have hlen2 : (b.map goToLower).dedup.length = (b.map goToLower).toFinset.card :=
        (List.card_toFinset _).symm
      have hcards := Finset.card_union_add_card_inter
        (a.map goToLower).toFinset (b.map goToLower).toFinset
      have hAsub : (a.map goToLower).toFinset.card
          ≤ ((a.map goToLower).toFinset ∪ (b.map goToLower).toFinset).card :=
        Finset.card_le_card Finset.subset_union_left
      have hApos : 0 < (a.map goToLower).toFinset.card := by
        rw [Finset.card_pos, List.toFinset_nonempty_iff]
        simpa using h1
      rw [hinter]
      have hunion : (a.map goToLower).dedup.length + (b.map goToLower).dedup.length
            - ((a.map goToLower).toFinset ∩ (b.map goToLower).toFinset).card
          = ((a.map goToLower).toFinset ∪ (b.map goToLower).toFinset).card := by
        rw [hlen1, hlen2]
        omega
      rw [hunion, if_neg (by omega), Rat.mkRat_eq_div]
      push_cast
      rfl

/-- The nested any-loops over comma segments are equivalent to the
specification's existential over the trimmed segment lists. -/
theorem any_any_iff_exists_seg (loc1 loc2 : String) :
    ((goSplitComma (goToLower (goTrimSpace loc1))).any (fun part1 =>
        (goSplitComma (goToLower (goTrimSpace loc2))).any (fun part2 =>
          goTrimSpace part1 = goTrimSpace part2)) = true)
      ↔ (∃ seg1 ∈ locationSegs loc1, ∃ seg2 ∈ locationSegs loc2, seg1 = seg2) := by
  simp only [List.any_eq_true, decide_eq_true_eq, locationSegs]
  constructor
  · rintro ⟨p1, hp1, p2, hp2, h⟩
    exact ⟨goTrimSpace p1, List.mem_map_of_mem _ hp1,
      goTrimSpace p2, List.mem_map_of_mem _ hp2, h⟩
  · rintro ⟨s1, hs1, s2, hs2, rfl⟩
    obtain ⟨p1, hp1, rfl⟩ := List.mem_map.mp hs1
    obtain ⟨p2, hp2, h2⟩ := List.mem_map.mp hs2
    exact ⟨p1, hp1, p2, hp2, h2.symm⟩

/-- C5. The location sub-score is 0.5 if either string is empty, 1.0 on a
full case/whitespace-insensitive match, 0.8 if some comma-delimited
segment matches across the two strings, and 0.2 otherwise, as
locationSpec transcribes from the specification. -/
theorem calculateLocationCompatibility_eq_locationSpec (loc1 loc2 : String) :
    calculateLocationCompatibility loc1 loc2 = locationSpec loc1 loc2 := by
  simp only [calculateLocationCompatibility, locationSpec]
  by_cases h1 : loc1 = ""
  · simp [h1]
  · by_cases h2 : loc2 = ""
    · simp [h2]
    · rw [if_neg (show ¬(loc1 = "" ∨ loc2 = "") by tauto),
        if_neg (show ¬(loc1 = "" ∨ loc2 = "") by tauto)]
      by_cases heq : goToLower (goTrimSpace loc1) = goToLower (goTrimSpace loc2)
      · rw [if_pos heq, if_pos heq]
      · rw [if_neg heq, if_neg heq]
        exact if_congr (any_any_iff_exists_seg loc1 loc2) rfl rfl

/-- Scanning the lower-cased copy of a list for a lower-cased element is
the decidable existence of a case-insensitive match. -/
theorem contains_lower_eq_decide (a : List String) (x : String) :
    ((a.map goToLower).contains (goToLower x))
      = decide (∃ y ∈ a, goToLower y = goToLower x) := by
  rw [Bool.eq_iff_iff]
  simp [List.contains, List.elem_iff, List.mem_map]

/-- C8. FindCommonTags and FindCommonSkills both return the
case-insensitive intersection of their two argument lists, each returned
element carrying the casing it has in the second argument. -/
theorem findCommon_eq_commonSpec (a b : List String) :
    FindCommonTags a b = commonSpec a b ∧ FindCommonSkills a b = commonSpec a b := by
  constructor
  · exact List.filter_congr (fun x _ => contains_lower_eq_decide a x)
  · exact List.filter_congr (fun x _ => contains_lower_eq_decide a x)

/-! ### Serialization round-trips and store lemmas -/

/-- Decoding an encoded string list recovers the list. -/
theorem decodeStrs_encode (l : List String) : decodeStrs (l.map .str) = some l := by
  induction l with
  | nil => rfl
  | cons a t ih => simp [decodeStrs, decodeStr, ih]

/-- Decoding an encoded string-slice value recovers the slice. -/
theorem decodeStrList_encodeStrs (l : List String) :
    decodeStrList (encodeStrs l) = some l := by
  simp [decodeStrList, encodeStrs, decodeStrs_encode]

/-- Unmarshal inverts marshal on user profiles. -/
theorem decodeProfile_encodeProfile (p : UserProfile) :
    decodeProfile (encodeProfile p) = some p := by
  simp [decodeProfile, encodeProfile, jGet, decodeStr, decodeInt,
    decodeStrList, encodeStrs, decodeStrs_encode, List.find?]

/-- Unmarshal inverts marshal on matches. -/
theorem decodeMatch_encodeMatch (m : Match) :
    decodeMatch (encodeMatch m) = some m := by
  simp [decodeMatch, encodeMatch, jGet, decodeStr, decodeInt, decodeRat,
    decodeStrList, encodeStrs, decodeStrs_encode, List.find?]

/-- GET after SET on the same key returns the value just written. -/
theorem storeGet_storeSet_self (s : Store) (k : String) (v : Json) :
    storeGet (storeSet s k v) k = some v := by
  simp [storeGet, storeSet, List.find?]

/-- C9. Storing a profile and immediately retrieving it by user id
returns a profile whose attributes all equal those stored: the
marshal-then-unmarshal round-trip through the store is the identity. -/
theorem profile_store_roundtrip (s : Store) (p : UserProfile) :
    ∃ q, GetUserProfile (StoreUserProfile s p) p.UserID = some q ∧
      q.UserID = p.UserID ∧ q.Tags = p.Tags ∧ q.Industries = p.Industries ∧
      q.Interests = p.Interests ∧ q.Skills = p.Skills ∧
      q.Experience = p.Experience ∧ q.Location = p.Location ∧ q.Bio = p.Bio := by
  refine ⟨p, ?_, rfl, rfl, rfl, rfl, rfl, rfl, rfl, rfl⟩
  unfold GetUserProfile StoreUserProfile
  rw [storeGet_storeSet_self]
  simp [decodeProfile_encodeProfile]

/-- C7. Updating a stored match's status to accepted and re-fetching it
by id returns the match with status accepted, an advanced updated_at,
and every other field unchanged. -/
theorem updateMatchStatus_accepted (s : Store) (matchID : String) (m : Match)
    (now : Int) (hget : GetMatchDetails s matchID = some m)
    (hid : m.ID = matchID) (hadv : m.UpdatedAt < now) :
    ∃ s2 m2, UpdateMatchStatus s matchID "accepted" now = some s2 ∧
      GetMatchDetails s2 matchID = some m2 ∧
      m2.Status = "accepted" ∧ m.UpdatedAt < m2.UpdatedAt ∧ m2.ID = m.ID ∧
      m2.UserID1 = m.UserID1 ∧ m2.UserID2 = m.UserID2 ∧ m2.Score = m.Score ∧
      m2.CommonTags = m.CommonTags ∧ m2.CommonSkills = m.CommonSkills ∧
      m2.CreatedAt = m.CreatedAt := by
  subst hid
  have hne : m.ID ≠ "" := by
    intro h
    unfold GetMatchDetails at hget
    rw [if_pos h] at hget
    cases hget
  have hfetch : (storeGet s ("match:" ++ m.ID)).bind decodeMatch = some m := by
    unfold GetMatchDetails at hget
    rwa [if_neg hne] at hget
  refine ⟨StoreMatch s { m with Status := "accepted", UpdatedAt := now },
    { m with Status := "accepted", UpdatedAt := now },
    ?_, ?_, rfl, hadv, rfl, rfl, rfl, rfl, rfl, rfl, rfl⟩
  · unfold UpdateMatchStatus
    rw [if_neg hne,
      if_neg (show ¬((!("accepted" == "pending" || "accepted" == "accepted"
        || "accepted" == "rejected")) = true) by decide),
      hfetch]
  · unfold GetMatchDetails
    rw [if_neg hne]
    unfold StoreMatch
    rw [show ({ m with Status := "accepted", UpdatedAt := now } : Match).ID = m.ID
        from rfl,
      storeGet_storeSet_self]
    simp [decodeMatch_encodeMatch]

/-! ### Structure of the match generator's output -/

/-- Every match returned by FindMatches was built by mkPendingMatch from a
stored candidate distinct from the subject whose score beats 0.3. -/
theorem mem_findMatches {s : Store} {userID : String} {freshId : Nat → String}
    {now : Int} {ms : List Match} {m : Match}
    (h : FindMatches s userID freshId now = some ms) (hm : m ∈ ms) :
    ∃ userProfile profile i,
      GetUserProfile s userID = some userProfile ∧
      profile ∈ GetAllUserProfiles s ∧
      profile.UserID ≠ userID ∧
      mkRat 3 10 < CalculateMatchScore userProfile profile ∧
      m = mkPendingMatch userID userProfile profile (freshId i) now := by
  unfold FindMatches at h
  cases hg : GetUserProfile s userID with
  | none => rw [hg] at h; cases h
  | some userProfile =>
    rw [hg] at h
    simp only [Option.map_some'] at h
    injection h with h
    subst h
    have hm1 := List.mem_of_mem_take hm
    have hm2 := ((List.perm_insertionSort
      (fun a b : Match => b.Score ≤ a.Score) _).mem_iff).mp hm1
    obtain ⟨ip, hip, hmk⟩ := List.mem_map.mp hm2
    have hpf : ip.2 ∈ (GetAllUserProfiles s).filter (fun profile =>
        !(profile.UserID == userID) &&
        decide (mkRat 3 10 < CalculateMatchScore userProfile profile)) := by
      have hsnd := List.mem_map_of_mem Prod.snd hip
      rwa [List.enum_map_snd] at hsnd
    obtain ⟨hmem, hpred⟩ := List.mem_filter.mp hpf
    rw [Bool.and_eq_true, Bool.not_eq_true', beq_eq_false_iff_ne] at hpred
    exact ⟨userProfile, ip.2, ip.1, rfl, hmem, hpred.1,
      of_decide_eq_true hpred.2, hmk.symm⟩

/-- FindMatches never returns more than ten matches. -/
theorem findMatches_length {s : Store} {userID : String} {freshId : Nat → String}
    {now : Int} {ms : List Match}
    (h : FindMatches s userID freshId now = some ms) : ms.length ≤ 10 := by
  unfold FindMatches at h
  cases hg : GetUserProfile s userID with
  | none => rw [hg] at h; cases h
  | some userProfile =>
    rw [hg] at h
    simp only [Option.map_some'] at h
    injection h with h
    subst h
    exact List.length_take_le _ _

/-- C3. The match generator returns at most 10 matches, and every
returned match scores strictly above 0.3. -/
theorem findMatches_cap_and_threshold (s : Store) (userID : String)
    (freshId : Nat → String) (now : Int) (ms : List Match)
    (h : FindMatches s userID freshId now = some ms) :
    ms.length ≤ 10 ∧ ∀ m ∈ ms, mkRat 3 10 < m.Score := by
  refine ⟨findMatches_length h, fun m hm => ?_⟩
  obtain ⟨userProfile, profile, i, _, _, _, hscore, hmk⟩ := mem_findMatches h hm
  rw [hmk]
  exact hscore

/-- C6. No match returned by the generator pairs the subject with itself:
the first member is the subject, the second is a candidate with a
different user id. -/
theorem findMatches_no_self (s : Store) (userID : String)
    (freshId : Nat → String) (now : Int) (ms : List Match)
    (h : FindMatches s userID freshId now = some ms) :
    ∀ m ∈ ms, m.UserID1 = userID ∧ m.UserID2 ≠ userID ∧ m.UserID2 ≠ m.UserID1 := by
  intro m hm
  obtain ⟨userProfile, profile, i, _, _, hneq, _, hmk⟩ := mem_findMatches h hm
  subst hmk
  exact ⟨rfl, hneq, hneq⟩

/-! ### Search pagination -/

/-- When the requester profile loads, SearchMatches runs the
rank-and-paginate continuation. -/
theorem searchMatches_eq_of_profile {s : Store} {criteria : MatchmakingCriteria}
    {userProfile : UserProfile}
    (h : GetUserProfile s criteria.UserID = some userProfile) :
    SearchMatches s criteria = searchAfterProfile s criteria userProfile := by
  unfold SearchMatches
  rw [h]

/-- C1 counterexample. On a concrete store with one surviving result,
criteria with limit 1 and offset 5 — an offset at least the number of
surviving results — make SearchMatches return the whole ranked list, not
an empty page. -/
theorem searchMatches_oversized_offset_not_empty :
    GetUserProfile cStore cCrit.UserID = some cProfile1 ∧
    0 < cCrit.Limit ∧
    (searchRanked cProfile1 (GetAllUserProfiles cStore) cCrit).length = 1 ∧
    ((searchRanked cProfile1 (GetAllUserProfiles cStore) cCrit).length : Int)
      ≤ cCrit.Offset ∧
    SearchMatches cStore cCrit
      = .ok (searchRanked cProfile1 (GetAllUserProfiles cStore) cCrit) ∧
    SearchMatches cStore cCrit ≠ .ok [] := by
  decide

/-- C1 amended. With a positive limit, an offset at least the number of
surviving results leaves the ranked list unpaginated (the full list is
returned, not an empty page), and a negative offset makes the Go slice
expression panic. -/
theorem searchMatches_pagination_amended (s : Store)
    (criteria : MatchmakingCriteria) (userProfile : UserProfile)
    (h : GetUserProfile s criteria.UserID = some userProfile)
    (hlim : 0 < criteria.Limit) :
    (((searchRanked userProfile (GetAllUserProfiles s) criteria).length : Int)
        ≤ criteria.Offset →
      SearchMatches s criteria
        = .ok (searchRanked userProfile (GetAllUserProfiles s) criteria)) ∧
    (criteria.Offset < 0 → SearchMatches s criteria = .panic) := by
  rw [searchMatches_eq_of_profile h]
  constructor
  · intro hoff
    unfold searchAfterProfile
    have hp : paginateSearch criteria
        (searchRanked userProfile (GetAllUserProfiles s) criteria)
        = some (searchRanked userProfile (GetAllUserProfiles s) criteria) := by
      simp only [paginateSearch]
      rw [if_neg (by rintro ⟨-, hc2⟩; omega)]
    rw [hp]
  · intro hneg
    unfold searchAfterProfile
    have hlen : (0 : Int) ≤ ((searchRanked userProfile (GetAllUserProfiles s)
        criteria).length : Int) := by positivity
    have hp : paginateSearch criteria
        (searchRanked userProfile (GetAllUserProfiles s) criteria) = none := by
      simp only [paginateSearch]
      rw [if_pos ⟨hlim, by omega⟩]
      simp only [goSlice]
      rw [if_neg (by rintro ⟨hc1, -⟩; omega)]
    rw [hp]

/-- C10. With limit 0 (the zero value of an omitted field) SearchMatches
applies no pagination: it returns the entire above-threshold ranked list,
and the offset value is ignored entirely. -/
theorem searchMatches_limit_zero (s : Store) (criteria : MatchmakingCriteria)
    (userProfile : UserProfile)
    (h : GetUserProfile s criteria.UserID = some userProfile)
    (hlim : criteria.Limit = 0) :
    SearchMatches s criteria
      = .ok (searchRanked userProfile (GetAllUserProfiles s) criteria) ∧
    ∀ k : Int, SearchMatches s { criteria with Offset := k }
      = SearchMatches s criteria := by
  have hfull : SearchMatches s criteria
      = .ok (searchRanked userProfile (GetAllUserProfiles s) criteria) := by
    rw [searchMatches_eq_of_profile h]
    unfold searchAfterProfile
    have hp : paginateSearch criteria
        (searchRanked userProfile (GetAllUserProfiles s) criteria)
        = some (searchRanked userProfile (GetAllUserProfiles s) criteria) := by
      simp only [paginateSearch]
      rw [if_neg (by rintro ⟨hc1, -⟩; omega)]
    rw [hp]
  refine ⟨hfull, fun k => ?_⟩
  have hk : GetUserProfile s ({ criteria with Offset := k }).UserID
      = some userProfile := h
  have hlimk : ({ criteria with Offset := k }).Limit = 0 := hlim
  have hfullk : SearchMatches s { criteria with Offset := k }
      = .ok (searchRanked userProfile (GetAllUserProfiles s)
          { criteria with Offset := k }) := by
    rw [searchMatches_eq_of_profile hk]
    unfold searchAfterProfile
    have hp : paginateSearch { criteria with Offset := k }
        (searchRanked userProfile (GetAllUserProfiles s)
          { criteria with Offset := k })
        = some (searchRanked userProfile (GetAllUserProfiles s)
          { criteria with Offset := k }) := by
      simp only [paginateSearch]
      rw [if_neg (by rintro ⟨hc1, -⟩; omega)]
    rw [hp]
  rw [hfull, hfullk]
  rfl

/-! ### Witnesses: the hypotheses of the theorems above are satisfiable -/

/-- Witness for the amended pagination theorem at the concrete store:
limit 1, offset 5 against one surviving result returns the full list. -/
theorem searchMatches_pagination_amended_witness :
    SearchMatches cStore cCrit
      = .ok (searchRanked cProfile1 (GetAllUserProfiles cStore) cCrit) :=
  (searchMatches_pagination_amended cStore cCrit cProfile1
    (by decide) (by decide)).1 (by decide)

/-- Witness for the cap-and-threshold theorem at the concrete store. -/
theorem findMatches_cap_and_threshold_witness :
    cFoundMatches.length ≤ 10 ∧ ∀ m ∈ cFoundMatches, mkRat 3 10 < m.Score :=
  findMatches_cap_and_threshold cStore "u1" (fun _ => "id0") 7 cFoundMatches
    (by decide)

/-- Witness for the no-self-match theorem at the concrete store, applied
to the one concrete match it returns. -/
theorem findMatches_no_self_witness :
    cFoundMatch.UserID1 = "u1" ∧ cFoundMatch.UserID2 ≠ "u1" ∧
      cFoundMatch.UserID2 ≠ cFoundMatch.UserID1 :=
  findMatches_no_self cStore "u1" (fun _ => "id0") 7 cFoundMatches (by decide)
    cFoundMatch (by decide)

/-- Witness for the status-update frame theorem at the concrete store. -/
theorem updateMatchStatus_accepted_witness :
    ∃ s2 m2, UpdateMatchStatus cMatchStore "m1" "accepted" 9 = some s2 ∧
      GetMatchDetails s2 "m1" = some m2 ∧
      m2.Status = "accepted" ∧ cMatch.UpdatedAt < m2.UpdatedAt ∧
      m2.ID = cMatch.ID ∧ m2.UserID1 = cMatch.UserID1 ∧
      m2.UserID2 = cMatch.UserID2 ∧ m2.Score = cMatch.Score ∧
      m2.CommonTags = cMatch.CommonTags ∧
      m2.CommonSkills = cMatch.CommonSkills ∧
      m2.CreatedAt = cMatch.CreatedAt :=
  updateMatchStatus_accepted cMatchStore "m1" cMatch 9
    (by decide) (by decide) (by decide)

/-- Witness for the limit-zero theorem at the concrete store. -/
theorem searchMatches_limit_zero_witness :
    SearchMatches cStore cCritZero
      = .ok (searchRanked cProfile1 (GetAllUserProfiles cStore) cCritZero) :=
  (searchMatches_limit_zero cStore cCritZero cProfile1 (by decide) (by decide)).1

end ConnectUp
